import Mathlib

/-!
Verification development for the naee-server authentication/session subsystem.

The data model and operations below are a shallow embedding of the TypeScript
sources (src/services/users.services.ts, src/controllers/users.controllers.ts,
src/middlewares/products.middlewares.ts).  Signed tokens are modelled
symbolically as a payload together with the secret used, store state as lists
of records, and fallible effects as Except results paired with the resulting
store state.  Store-operation failures are injected through an OpEnv record so
that error-path behaviour can be stated.
-/

namespace Naee

/-- Modelled from the spec: constants/enum.ts is not under src/; the four token
classes follow section 4.1 of the spec and the payloads built by the service. -/
inductive TokenType
  | Access
  | Refresh
  | VerifyEmail
  | ForgotPassword
deriving DecidableEq, Repr

/-- Modelled from the spec: constants/enum.ts is not under src/; section 3 of
the spec gives the verification states unverified / verified / banned. -/
inductive UserVerifyStatus
  | Unverified
  | Verified
  | Banned
deriving DecidableEq, Repr

/-- Modelled from the spec: constants/enum.ts is not under src/; section 3
mentions an ordinary/admin role enum. -/
inductive UserRole
  | User
  | Admin
deriving DecidableEq, Repr

/-- Modelled from the spec: constants/enum.ts is not under src/; section 3
mentions an account status beside the verification status.  Its concrete
values never matter to the claims, only that it is propagated unchanged. -/
inductive UserStatus
  | Active
  | Inactive
deriving DecidableEq, Repr

/-- Modelled from the spec: constants/config.ts is not under src/; section 6
requires four distinct secrets and four expiry durations, one per token type.
Concrete distinct values keep every definition executable. -/
structure EnvConfig where
  JWT_ACCESS_TOKEN_SECRET : Nat
  JWT_REFRESH_TOKEN_SECRET : Nat
  JWT_VERIFY_EMAIL_TOKEN_SECRET : Nat
  JWT_FORGOT_PASSWORD_TOKEN_SECRET : Nat
  JWT_ACCESS_TOKEN_EXPIRED_IN : Nat
  JWT_REFRESH_TOKEN_EXPIRED_IN : Nat
  JWT_VERIFY_EMAIL_TOKEN_EXPIRED_IN : Nat
  JWT_FORGOT_PASSWORD_TOKEN_EXPIRED_IN : Nat
deriving DecidableEq, Repr

def ENV_CONFIG : EnvConfig :=
  { JWT_ACCESS_TOKEN_SECRET := 101
    JWT_REFRESH_TOKEN_SECRET := 102
    JWT_VERIFY_EMAIL_TOKEN_SECRET := 103
    JWT_FORGOT_PASSWORD_TOKEN_SECRET := 104
    JWT_ACCESS_TOKEN_EXPIRED_IN := 900
    JWT_REFRESH_TOKEN_EXPIRED_IN := 8640000
    JWT_VERIFY_EMAIL_TOKEN_EXPIRED_IN := 86400
    JWT_FORGOT_PASSWORD_TOKEN_EXPIRED_IN := 86400 }

/-- The claims carried by a signed token.  ObjectId values are modelled as
naturals.  Verify-email and forgot-password tokens carry only the userId and
token type in the source; the remaining fields are filled with defaults there. -/
structure TokenPayload where
  userId : Nat
  tokenType : TokenType
  verify : UserVerifyStatus
  status : UserStatus
  role : UserRole
  iat : Nat
  exp : Nat
deriving DecidableEq, Repr

/-- A signed token: the payload plus the secret it was signed with.  Two
tokens are the same string exactly when payload and secret coincide. -/
structure Token where
  payload : TokenPayload
  secret : Nat
deriving DecidableEq, Repr

inductive JwtError
  | invalidSignature
  | expired
deriving DecidableEq, Repr

/-- Modelled from the spec: utils/jwt.ts is not under src/.  signToken with an
expiresIn option stamps iat with the current time and exp with now + duration
(section 4.1 codec contract, standard JWT semantics). -/
def signTokenWithDuration (now : Nat) (p : TokenPayload) (dur : Nat) (key : Nat) : Token :=
  { payload := { p with iat := now, exp := now + dur }, secret := key }

/-- Modelled from the spec: utils/jwt.ts is not under src/.  signToken with an
exp claim already in the payload keeps that exp and stamps iat with now. -/
def signTokenWithExp (now : Nat) (p : TokenPayload) (key : Nat) : Token :=
  { payload := { p with iat := now }, secret := key }

/-- Modelled from the spec: utils/jwt.ts is not under src/.  verifyToken
checks the signature (the secret used) and the expiry instant, and returns the
embedded payload on success (section 4.1 codec contract). -/
def verifyToken (now : Nat) (key : Nat) (t : Token) : Except JwtError TokenPayload :=
  if t.secret ≠ key then Except.error JwtError.invalidSignature
  else if t.payload.exp ≤ now then Except.error JwtError.expired
  else Except.ok t.payload

/-- Arguments of the private sign helpers of UserService (type SignToken in
users.services.ts). -/
structure SignToken where
  userId : Nat
  verify : UserVerifyStatus
  status : UserStatus
  role : UserRole
  exp : Option Nat := none
deriving DecidableEq, Repr

/-- JavaScript truthiness of the optional exp argument: undefined and 0 are
both falsy, so the source line if (exp) takes the fresh-expiry branch for
exp = 0 as well as for an absent exp. -/
def jsTruthy : Option Nat → Bool
  | none => false
  | some n => n != 0

def signAccessToken (now : Nat) (a : SignToken) : Token :=
  signTokenWithDuration now
    { userId := a.userId, tokenType := TokenType.Access, verify := a.verify,
      status := a.status, role := a.role, iat := 0, exp := 0 }
    ENV_CONFIG.JWT_ACCESS_TOKEN_EXPIRED_IN ENV_CONFIG.JWT_ACCESS_TOKEN_SECRET

def signRefreshToken (now : Nat) (a : SignToken) : Token :=
  if jsTruthy a.exp then
    signTokenWithExp now
      { userId := a.userId, tokenType := TokenType.Refresh, verify := a.verify,
        status := a.status, role := a.role, iat := 0, exp := a.exp.getD 0 }
      ENV_CONFIG.JWT_REFRESH_TOKEN_SECRET
  else
    signTokenWithDuration now
      { userId := a.userId, tokenType := TokenType.Refresh, verify := a.verify,
        status := a.status, role := a.role, iat := 0, exp := 0 }
      ENV_CONFIG.JWT_REFRESH_TOKEN_EXPIRED_IN ENV_CONFIG.JWT_REFRESH_TOKEN_SECRET

/-- Verify-email tokens carry only the userId and token type in the source;
the other claim fields are modelled by defaults. -/
def signVerifyEmailToken (now : Nat) (userId : Nat) : Token :=
  signTokenWithDuration now
    { userId := userId, tokenType := TokenType.VerifyEmail,
      verify := UserVerifyStatus.Unverified, status := UserStatus.Active,
      role := UserRole.User, iat := 0, exp := 0 }
    ENV_CONFIG.JWT_VERIFY_EMAIL_TOKEN_EXPIRED_IN ENV_CONFIG.JWT_VERIFY_EMAIL_TOKEN_SECRET

def signForgotPasswordToken (now : Nat) (userId : Nat) : Token :=
  signTokenWithDuration now
    { userId := userId, tokenType := TokenType.ForgotPassword,
      verify := UserVerifyStatus.Unverified, status := UserStatus.Active,
      role := UserRole.User, iat := 0, exp := 0 }
    ENV_CONFIG.JWT_FORGOT_PASSWORD_TOKEN_EXPIRED_IN ENV_CONFIG.JWT_FORGOT_PASSWORD_TOKEN_SECRET

def signAccessAndRefreshToken (now : Nat) (a : SignToken) : Token × Token :=
  (signAccessToken now a, signRefreshToken now a)

def decodeRefreshToken (now : Nat) (t : Token) : Except JwtError TokenPayload :=
  verifyToken now ENV_CONFIG.JWT_REFRESH_TOKEN_SECRET t

/-- Modelled from the spec: utils/crypto.ts is not under src/; hashPassword is
a deterministic one-way transform (section 4.2), modelled symbolically. -/
def hashPassword (p : String) : String := "sha256$" ++ p

/-- Modelled from the spec: models/schemas/User.schema.ts is not under src/.
Field set follows section 3 plus every field the service reads or omits; the
defaults (fresh users are Unverified, ordinary role) follow section 3 and the
defaulting pattern of the sibling schema files that are under src/. -/
structure User where
  _id : Nat
  email : String
  password : String
  role : UserRole := UserRole.User
  verify : UserVerifyStatus := UserVerifyStatus.Unverified
  status : UserStatus := UserStatus.Active
  verifyEmailToken : Option Token := none
  forgotPasswordToken : Option Token := none
  avatar : String := ""
  phoneNumber : String := ""
  addresses : List Nat := []
  createdAt : Nat
  updatedAt : Nat
deriving DecidableEq, Repr

/-- Modelled from the spec: models/schemas/RefreshToken.schema.ts is not under
src/; section 3 describes the record as token string plus iat and exp. -/
structure RefreshTokenRec where
  token : Token
  iat : Nat
  exp : Nat
deriving DecidableEq, Repr

/-- The two collections of databaseService that the session subsystem uses. -/
structure DB where
  users : List User := []
  refreshTokens : List RefreshTokenRec := []
deriving DecidableEq, Repr

def findUser (db : DB) (id : Nat) : Option User :=
  db.users.find? (fun u => u._id == id)

/-- updateOne with an _id filter: rewrite the first matching document. -/
def updateFirstUser : List User → Nat → (User → User) → List User
  | [], _, _ => []
  | u :: us, id, f => if u._id == id then f u :: us else u :: updateFirstUser us id f

/-- findOneAndUpdate with an _id filter and default options: the document
returned is the one from BEFORE the update (driver default returnDocument is
the original document), while the store holds the updated one. -/
def findOneAndUpdateUser (db : DB) (id : Nat) (f : User → User) : Option User × DB :=
  match db.users.find? (fun u => u._id == id) with
  | none => (none, db)
  | some u => (some u, { db with users := updateFirstUser db.users id f })

/-- deleteOne with a token filter: remove the first matching record. -/
def deleteFirstRT : List RefreshTokenRec → Token → List RefreshTokenRec
  | [], _ => []
  | r :: rs, t => if r.token == t then rs else r :: deleteFirstRT rs t

/-- The values a user document field can hold, for the document view that
crosses into HTTP responses. -/
inductive FieldValue
  | oid (n : Nat)
  | str (s : String)
  | tokenField (t : Option Token)
  | roleV (r : UserRole)
  | verifyV (v : UserVerifyStatus)
  | statusV (s : UserStatus)
  | dateV (n : Nat)
  | addrList (l : List Nat)
deriving DecidableEq, Repr

/-- The stored user document as a field map, the shape in which it reaches
lodash omit and the HTTP layer. -/
def userToDoc (u : User) : List (String × FieldValue) :=
  [("_id", FieldValue.oid u._id),
   ("email", FieldValue.str u.email),
   ("password", FieldValue.str u.password),
   ("role", FieldValue.roleV u.role),
   ("verify", FieldValue.verifyV u.verify),
   ("status", FieldValue.statusV u.status),
   ("verifyEmailToken", FieldValue.tokenField u.verifyEmailToken),
   ("forgotPasswordToken", FieldValue.tokenField u.forgotPasswordToken),
   ("avatar", FieldValue.str u.avatar),
   ("phoneNumber", FieldValue.str u.phoneNumber),
   ("addresses", FieldValue.addrList u.addresses),
   ("createdAt", FieldValue.dateV u.createdAt),
   ("updatedAt", FieldValue.dateV u.updatedAt)]

/-- lodash omit: drop the listed keys from the document. -/
def omitKeys (doc : List (String × FieldValue)) (keys : List String) : List (String × FieldValue) :=
  doc.filter (fun kv => !(keys.contains kv.1))

/-- The omit list used by register, verifyEmail and resetPassword. -/
def sanitizedOmitKeys : List String :=
  ["password", "avatar", "phoneNumber", "verifyEmailToken", "forgotPasswordToken",
   "addresses", "status", "role", "verify"]

def lookupField (k : String) (doc : List (String × FieldValue)) : Option FieldValue :=
  (doc.find? (fun kv => kv.1 == k)).map (fun kv => kv.2)

/-- Success/failure switches for the effectful collaborators, used to inject
store and email failures; a failed operation performs no mutation. -/
structure OpEnv where
  emailOk : Bool := true
  usersInsertOk : Bool := true
  rtInsertOk : Bool := true
  rtDeleteOk : Bool := true
deriving DecidableEq, Repr

def envAllOk : OpEnv := {}

inductive SvcError
  | store
  | email
  | nullDeref
  | jwt (e : JwtError)
deriving DecidableEq, Repr

/-- UserService.register.  Promise.all starts the verification email and the
user insert together, so the insert lands even when the email fails; then the
fresh user is re-read, an access+refresh pair is signed from the stored
fields, the refresh token is decoded and persisted, and a sanitized view is
returned. -/
def register (env : OpEnv) (now : Nat) (newId : Nat) (email password : String) (db : DB) :
    Except SvcError (Token × Token × List (String × FieldValue)) × DB :=
  let verifyEmailToken := signVerifyEmailToken now newId
  let newUser : User :=
    { _id := newId, email := email, password := hashPassword password,
      verifyEmailToken := some verifyEmailToken, createdAt := now, updatedAt := now }
  let db1 := if env.usersInsertOk then { db with users := db.users ++ [newUser] } else db
  if env.emailOk = false then (Except.error SvcError.email, db1)
  else if env.usersInsertOk = false then (Except.error SvcError.store, db1)
  else
    match findUser db1 newId with
    | none => (Except.error SvcError.nullDeref, db1)
    | some user =>
      let pair := signAccessAndRefreshToken now
        { userId := user._id, verify := user.verify, status := user.status, role := user.role }
      match decodeRefreshToken now pair.2 with
      | Except.error e => (Except.error (SvcError.jwt e), db1)
      | Except.ok d =>
        if env.rtInsertOk then
          (Except.ok (pair.1, pair.2, omitKeys (userToDoc user) sanitizedOmitKeys),
           { db1 with refreshTokens := db1.refreshTokens ++ [{ token := pair.2, iat := d.iat, exp := d.exp }] })
        else (Except.error SvcError.store, db1)

/-- UserService.login: sign a pair from the (already validated) user, decode
the refresh token and persist its record. -/
def login (env : OpEnv) (now : Nat) (user : User) (db : DB) :
    Except SvcError (Token × Token) × DB :=
  let pair := signAccessAndRefreshToken now
    { userId := user._id, verify := user.verify, status := user.status, role := user.role }
  match decodeRefreshToken now pair.2 with
  | Except.error e => (Except.error (SvcError.jwt e), db)
  | Except.ok d =>
    if env.rtInsertOk then
      (Except.ok pair,
       { db with refreshTokens := db.refreshTokens ++ [{ token := pair.2, iat := d.iat, exp := d.exp }] })
    else (Except.error SvcError.store, db)

/-- UserService.resendEmailVerify.  The source reads (user as WithId).email
while building the second Promise.all array, so an absent user throws before
updateOne is ever issued; on a present user the stored verify-email token is
overwritten. -/
def resendEmailVerify (now : Nat) (userId : Nat) (db : DB) : Except SvcError Bool × DB :=
  let verifyEmailToken := signVerifyEmailToken now userId
  match findUser db userId with
  | none => (Except.error SvcError.nullDeref, db)
  | some _ =>
    (Except.ok true,
     { db with users :=
        (updateFirstUser db.users userId
          (fun u => { u with verifyEmailToken := some verifyEmailToken, updatedAt := now })) })

/-- UserService.verifyEmail.  findOneAndUpdate clears the stored token and
sets verify, but hands back the PRE-update document; the token pair and the
sanitized view are built from that pre-update document. -/
def verifyEmail (now : Nat) (userId : Nat) (db : DB) :
    Except SvcError (Token × Token × List (String × FieldValue)) × DB :=
  let r := findOneAndUpdateUser db userId
    (fun u => { u with verifyEmailToken := none, verify := UserVerifyStatus.Verified, updatedAt := now })
  match r.1 with
  | none => (Except.error SvcError.nullDeref, r.2)
  | some user =>
    let pair := signAccessAndRefreshToken now
      { userId := user._id, verify := user.verify, status := user.status, role := user.role }
    (Except.ok (pair.1, pair.2, omitKeys (userToDoc user) sanitizedOmitKeys), r.2)

/-- UserService.logout: delete-if-exists on the refresh record, always
reporting success. -/
def logout (t : Token) (db : DB) : Bool × DB :=
  (true, { db with refreshTokens := deleteFirstRT db.refreshTokens t })

/-- Argument record of UserService.refreshToken. -/
structure RefreshArgs where
  refreshToken : Token
  userId : Nat
  verify : UserVerifyStatus
  status : UserStatus
  role : UserRole
  refreshTokenExp : Nat
deriving DecidableEq, Repr

/-- UserService.refreshToken.  Promise.all signs the new pair (pure) while
deleting the old record; then the new refresh token is decoded and its record
inserted.  Delete and insert are separate store calls, not one transaction. -/
def refreshToken (env : OpEnv) (now : Nat) (a : RefreshArgs) (db : DB) :
    Except SvcError (Token × Token) × DB :=
  let pair := signAccessAndRefreshToken now
    { userId := a.userId, verify := a.verify, status := a.status, role := a.role,
      exp := some a.refreshTokenExp }
  let db1 := if env.rtDeleteOk then { db with refreshTokens := deleteFirstRT db.refreshTokens a.refreshToken } else db
  if env.rtDeleteOk = false then (Except.error SvcError.store, db1)
  else
    match decodeRefreshToken now pair.2 with
    | Except.error e => (Except.error (SvcError.jwt e), db1)
    | Except.ok d =>
      if env.rtInsertOk then
        (Except.ok pair,
         { db1 with refreshTokens := db1.refreshTokens ++ [{ token := pair.2, iat := d.iat, exp := d.exp }] })
      else (Except.error SvcError.store, db1)

/-- UserService.resetPassword.  findOneAndUpdate sets the new password hash,
clears forgotPasswordToken and - via currentDate on createdAt - refreshes the
createdAt timestamp (not updatedAt); the pre-update document is handed back
and used for the token pair and the sanitized view. -/
def resetPassword (now : Nat) (userId : Nat) (password : String) (db : DB) :
    Except SvcError (Token × Token × List (String × FieldValue)) × DB :=
  let r := findOneAndUpdateUser db userId
    (fun u => { u with password := hashPassword password, forgotPasswordToken := none, createdAt := now })
  match r.1 with
  | none => (Except.error SvcError.nullDeref, r.2)
  | some user =>
    let pair := signAccessAndRefreshToken now
      { userId := user._id, verify := user.verify, status := user.status, role := user.role }
    (Except.ok (pair.1, pair.2, omitKeys (userToDoc user) sanitizedOmitKeys), r.2)

def LOGIN_SUCCESS : String := "Login successfully"

/-- The data part of loginController's response: the service result spread
together with the raw req.user document, with no omit applied. -/
structure LoginData where
  accessToken : Token
  refreshToken : Token
  user : List (String × FieldValue)
deriving DecidableEq, Repr

/-- loginController from users.controllers.ts: call the service, then respond
with message and data, the data carrying the stored user document as-is. -/
def loginController (env : OpEnv) (now : Nat) (user : User) (db : DB) :
    Except SvcError (String × LoginData) × DB :=
  match login env now user db with
  | (Except.ok pair, db1) =>
    (Except.ok (LOGIN_SUCCESS,
      { accessToken := pair.1, refreshToken := pair.2, user := userToDoc user }), db1)
  | (Except.error e, db1) => (Except.error e, db1)

inductive MwError
  | unauthorized (e : JwtError)
  | notFoundInStore
deriving DecidableEq, Repr

/-- Modelled from the spec: middlewares/users.middlewares.ts is not under
src/.  Sections 4.5 and 8: the refresh-token middleware verifies the presented
token against the refresh secret and rejects a token with no record in the
revocation store with a NotFound result, before the service runs. -/
def refreshTokenValidator (now : Nat) (t : Token) (db : DB) : Except MwError TokenPayload :=
  match verifyToken now ENV_CONFIG.JWT_REFRESH_TOKEN_SECRET t with
  | Except.error e => Except.error (MwError.unauthorized e)
  | Except.ok p =>
    match db.refreshTokens.find? (fun r => r.token == t) with
    | none => Except.error MwError.notFoundInStore
    | some _ => Except.ok p

inductive FlowError
  | mw (e : MwError)
  | svc (e : SvcError)
deriving DecidableEq, Repr

/-- The refresh endpoint pipeline: middleware first, then the service call
with the decoded claims and the decoded original expiry. -/
def refreshTokenFlow (env : OpEnv) (now : Nat) (t : Token) (db : DB) :
    Except FlowError (Token × Token) × DB :=
  match refreshTokenValidator now t db with
  | Except.error e => (Except.error (FlowError.mw e), db)
  | Except.ok p =>
    match refreshToken env now
      { refreshToken := t, userId := p.userId, verify := p.verify, status := p.status,
        role := p.role, refreshTokenExp := p.exp } db with
    | (Except.ok x, db1) => (Except.ok x, db1)
    | (Except.error e, db1) => (Except.error (FlowError.svc e), db1)

def PRODUCT_CATEGORY_ID_IS_REQUIRED : String := "Product category id is required"

def PRODUCT_CATEGORY_ID_IS_INVALID : String := "Product category id is invalid"

def PRODUCT_CATEGORY_IS_NOT_AVAILABLE : String := "Product category not available"

/-- HttpStatusCode.BadRequest. -/
def badRequest : Nat := 400

/-- HttpStatusCode.NotFound. -/
def notFound : Nat := 404

/-- ErrorWithStatus from models/Errors.ts: a message plus an HTTP status. -/
structure ErrorWithStatus where
  message : String
  status : Nat
deriving DecidableEq, Repr

/-- The express-validator trim sanitizer (JavaScript String.prototype.trim),
written over the character list so that it is executable by reduction. -/
def jsTrim (s : String) : String :=
  String.mk (((s.toList.dropWhile Char.isWhitespace).reverse.dropWhile Char.isWhitespace).reverse)

/-- Lower-casing over the character list, used for the canonical hex form of
an ObjectId (hex digits are case-insensitive). -/
def jsToLower (s : String) : String := String.mk (s.toList.map Char.toLower)

def isHexChar (c : Char) : Bool :=
  c.isDigit || ('a' ≤ c && c ≤ 'f') || ('A' ≤ c && c ≤ 'F')

/-- mongodb ObjectId.isValid on a string (external library, modelled per its
documented behaviour): any 12-character string, or a 24-character hex string. -/
def isValidObjectId (s : String) : Bool :=
  s.length == 12 || (s.length == 24 && s.toList.all isHexChar)

def hexDigitChar (n : Nat) : Char :=
  if n < 10 then Char.ofNat (48 + n) else Char.ofNat (87 + n)

def byteToHex (c : Char) : List Char :=
  [hexDigitChar (c.toNat / 16 % 16), hexDigitChar (c.toNat % 16)]

/-- Canonical hex form of new ObjectId(value): a 12-character string is taken
as raw bytes and hex-encoded, a 24-character hex string is lowercased. -/
def mkObjectIdHex (s : String) : String :=
  if s.length == 12 then String.mk ((s.toList.map byteToHex).flatten) else jsToLower s

/-- productCategoryIdValidator from products.middlewares.ts: the param is
trimmed, an empty value and a non-ObjectId value are rejected as BadRequest,
a valid id with no stored category as NotFound; otherwise the request passes.
The category store is modelled as the list of stored ids in canonical hex. -/
def productCategoryIdValidator (cats : List String) (value : String) : Except ErrorWithStatus Unit :=
  let v := jsTrim value
  if v.isEmpty then
    Except.error { message := PRODUCT_CATEGORY_ID_IS_REQUIRED, status := badRequest }
  else if isValidObjectId v = false then
    Except.error { message := PRODUCT_CATEGORY_ID_IS_INVALID, status := badRequest }
  else
    match cats.find? (fun c => c == mkObjectIdHex v) with
    | none => Except.error { message := PRODUCT_CATEGORY_IS_NOT_AVAILABLE, status := notFound }
    | some _ => Except.ok ()

/-- True when the sanitized-sensitive fields are still present in a document
view: the password, verifyEmailToken or forgotPasswordToken key. -/
def sensitiveLeak (doc : List (String × FieldValue)) : Bool :=
  (lookupField "password" doc).isSome
    || (lookupField "verifyEmailToken" doc).isSome
    || (lookupField "forgotPasswordToken" doc).isSome

/-- A stored verify-email token for the test fixtures. -/
def tok0 : Token := signVerifyEmailToken 0 1

/-- An unverified user as stored right after registration. -/
def u0 : User :=
  { _id := 1, email := "a@x.com", password := hashPassword "secret",
    verifyEmailToken := some tok0, createdAt := 0, updatedAt := 0 }

def db0 : DB := { users := [u0] }

/-- A refresh token issued at time 0 to user 1. -/
def oldTok : Token :=
  signRefreshToken 0
    { userId := 1, verify := UserVerifyStatus.Unverified, status := UserStatus.Active,
      role := UserRole.User }

/-- Rotation arguments presenting oldTok with an original expiry of 0. -/
def rargs0 : RefreshArgs :=
  { refreshToken := oldTok, userId := 1, verify := UserVerifyStatus.Unverified,
    status := UserStatus.Active, role := UserRole.User, refreshTokenExp := 0 }

/-- Rotation arguments presenting oldTok with an original expiry of 5000. -/
def rargs1 : RefreshArgs := { rargs0 with refreshTokenExp := 5000 }

/-- A store holding exactly the record of oldTok. -/
def dbR0 : DB := { refreshTokens := [{ token := oldTok, iat := 0, exp := 8640000 }] }

lemma find?_append_none {α : Type} (p : α → Bool) (l₁ l₂ : List α)
    (h : l₁.find? p = none) : (l₁ ++ l₂).find? p = l₂.find? p := by
  induction l₁ with
  | nil => simp
  | cons x xs ih =>
    have hx : p x = false := by
      cases hpx : p x with
      | false => rfl
      | true => rw [List.find?_cons_of_pos _ hpx] at h; exact absurd h (by simp)
    rw [List.find?_cons_of_neg _ (by simp [hx])] at h
    rw [List.cons_append, List.find?_cons_of_neg _ (by simp [hx])]
    exact ih h

lemma deleteFirstRT_find?_none (l : List RefreshTokenRec) (t : Token)
    (h : l.countP (fun r => r.token == t) ≤ 1) :
    (deleteFirstRT l t).find? (fun r => r.token == t) = none := by
  induction l with
  | nil => rfl
  | cons r rs ih =>
    cases hr : (r.token == t) with
    | true =>
      have hc := h
      rw [List.countP_cons] at hc
      have hone : (if (fun (x : RefreshTokenRec) => x.token == t) r then 1 else 0) = 1 := by
        simp [hr]
      rw [hone] at hc
      have hz : rs.countP (fun x => x.token == t) = 0 := by omega
      have hstep : deleteFirstRT (r :: rs) t = rs := by simp [deleteFirstRT, hr]
      rw [hstep, List.find?_eq_none]
      intro x hx hpx
      exact (List.countP_eq_zero.mp hz) x hx hpx
    | false =>
      have hc := h
      rw [List.countP_cons] at hc
      have hone : (if (fun (x : RefreshTokenRec) => x.token == t) r then 1 else 0) = 0 := by
        simp [hr]
      rw [hone] at hc
      have hrs : rs.countP (fun x => x.token == t) ≤ 1 := by omega
      have hstep : deleteFirstRT (r :: rs) t = r :: deleteFirstRT rs t := by
        simp [deleteFirstRT, hr]
      rw [hstep, List.find?_cons_of_neg _ (by simp [hr])]
      exact ih hrs

lemma find?_updateFirstUser (l : List User) (id : Nat) (f : User → User) (u : User)
    (hid : ∀ v, (f v)._id = v._id)
    (h : l.find? (fun x => x._id == id) = some u) :
    (updateFirstUser l id f).find? (fun x => x._id == id) = some (f u) := by
  induction l with
  | nil => simp [List.find?] at h
  | cons x xs ih =>
    cases hx : (x._id == id) with
    | true =>
      simp only [List.find?_cons, hx, Option.some.injEq] at h
      subst h
      have hstep : updateFirstUser (x :: xs) id f = f x :: xs := by
        simp [updateFirstUser, hx]
      rw [hstep]
      have hfx : ((f x)._id == id) = true := by rw [hid x]; exact hx
      simp only [List.find?_cons, hfx]
    | false =>
      simp only [List.find?_cons, hx] at h
      have hstep : updateFirstUser (x :: xs) id f = x :: updateFirstUser xs id f := by
        simp [updateFirstUser, hx]
      rw [hstep]
      simp only [List.find?_cons, hx]
      exact ih h

lemma decode_signRefreshToken_fresh (now : Nat) (a : SignToken) (h : jsTruthy a.exp = false) :
    decodeRefreshToken now (signRefreshToken now a) =
      Except.ok { userId := a.userId, tokenType := TokenType.Refresh, verify := a.verify,
                  status := a.status, role := a.role, iat := now,
                  exp := now + ENV_CONFIG.JWT_REFRESH_TOKEN_EXPIRED_IN } := by
  have hdur : ENV_CONFIG.JWT_REFRESH_TOKEN_EXPIRED_IN = 8640000 := rfl
  have hnow : ¬ (now + ENV_CONFIG.JWT_REFRESH_TOKEN_EXPIRED_IN ≤ now) := by
    rw [hdur]; omega
  simp [decodeRefreshToken, signRefreshToken, h, signTokenWithDuration, verifyToken, hnow]

lemma decode_signRefreshToken_pinned (now : Nat) (a : SignToken) (e : Nat)
    (hexp : a.exp = some e) (hne : e ≠ 0) (hfut : now < e) :
    decodeRefreshToken now (signRefreshToken now a) =
      Except.ok { userId := a.userId, tokenType := TokenType.Refresh, verify := a.verify,
                  status := a.status, role := a.role, iat := now, exp := e } := by
  have hnow : ¬ (e ≤ now) := by omega
  simp [decodeRefreshToken, signRefreshToken, hexp, jsTruthy, hne, signTokenWithExp,
    verifyToken, hnow]

lemma verify_signAccessToken (now : Nat) (a : SignToken) :
    verifyToken now ENV_CONFIG.JWT_ACCESS_TOKEN_SECRET (signAccessToken now a) =
      Except.ok { userId := a.userId, tokenType := TokenType.Access, verify := a.verify,
                  status := a.status, role := a.role, iat := now,
                  exp := now + ENV_CONFIG.JWT_ACCESS_TOKEN_EXPIRED_IN } := by
  have hdur : ENV_CONFIG.JWT_ACCESS_TOKEN_EXPIRED_IN = 900 := rfl
  have hnow : ¬ (now + ENV_CONFIG.JWT_ACCESS_TOKEN_EXPIRED_IN ≤ now) := by
    rw [hdur]; omega
  simp [signAccessToken, signTokenWithDuration, verifyToken, hnow]

/-- The SignToken arguments built by login/verifyEmail/resetPassword/register
from a user document (no pinned exp). -/
def loginSign (u : User) : SignToken :=
  { userId := u._id, verify := u.verify, status := u.status, role := u.role }

/-- The SignToken arguments built by refreshToken (exp pinned to the decoded
original expiry). -/
def rotSign (a : RefreshArgs) : SignToken :=
  { userId := a.userId, verify := a.verify, status := a.status, role := a.role,
    exp := some a.refreshTokenExp }

/-- The user document register inserts. -/
def regUser (now newId : Nat) (email password : String) : User :=
  { _id := newId, email := email, password := hashPassword password,
    verifyEmailToken := some (signVerifyEmailToken now newId),
    createdAt := now, updatedAt := now }

lemma sensitiveLeak_sanitized (u : User) :
    sensitiveLeak (omitKeys (userToDoc u) sanitizedOmitKeys) = false := rfl

lemma refreshToken_ok (env : OpEnv) (now : Nat) (a : RefreshArgs) (db : DB)
    (hins : env.rtInsertOk = true) (hdel : env.rtDeleteOk = true)
    (hne : a.refreshTokenExp ≠ 0) (hfut : now < a.refreshTokenExp) :
    refreshToken env now a db =
      (Except.ok (signAccessToken now (rotSign a), signRefreshToken now (rotSign a)),
       { db with refreshTokens :=
          (deleteFirstRT db.refreshTokens a.refreshToken
            ++ [{ token := signRefreshToken now (rotSign a), iat := now,
                  exp := a.refreshTokenExp }]) }) := by
  have hd := decode_signRefreshToken_pinned now (rotSign a) a.refreshTokenExp rfl hne hfut
  simp only [rotSign] at hd
  simp [refreshToken, signAccessAndRefreshToken, hdel, hins, hd, rotSign]

lemma login_ok (env : OpEnv) (now : Nat) (u : User) (db : DB)
    (hins : env.rtInsertOk = true) :
    login env now u db =
      (Except.ok (signAccessToken now (loginSign u), signRefreshToken now (loginSign u)),
       { db with refreshTokens :=
          (db.refreshTokens
            ++ [{ token := signRefreshToken now (loginSign u), iat := now,
                  exp := now + ENV_CONFIG.JWT_REFRESH_TOKEN_EXPIRED_IN }]) }) := by
  have hd := decode_signRefreshToken_fresh now (loginSign u) rfl
  simp only [loginSign] at hd
  simp [login, signAccessAndRefreshToken, hins, hd, loginSign]

lemma register_ok (now newId : Nat) (email password : String) (db : DB)
    (hfresh : findUser db newId = none) :
    register envAllOk now newId email password db =
      (Except.ok (signAccessToken now (loginSign (regUser now newId email password)),
                  signRefreshToken now (loginSign (regUser now newId email password)),
                  omitKeys (userToDoc (regUser now newId email password)) sanitizedOmitKeys),
       { users := db.users ++ [regUser now newId email password],
         refreshTokens :=
          (db.refreshTokens
            ++ [{ token := signRefreshToken now (loginSign (regUser now newId email password)),
                  iat := now,
                  exp := now + ENV_CONFIG.JWT_REFRESH_TOKEN_EXPIRED_IN }]) }) := by
  have hfind : findUser { db with users := db.users ++ [regUser now newId email password] } newId
      = some (regUser now newId email password) := by
    unfold findUser at hfresh ⊢
    rw [find?_append_none _ _ _ hfresh]
    simp [List.find?_cons, regUser]
  have hd := decode_signRefreshToken_fresh now (loginSign (regUser now newId email password)) rfl
  simp only [loginSign] at hd
  simp [regUser] at hfind hd
  simp [register, envAllOk, hfind, signAccessAndRefreshToken, hd, loginSign, regUser]

lemma verifyEmail_ok (now uid : Nat) (u : User) (db : DB)
    (h : findUser db uid = some u) :
    verifyEmail now uid db =
      (Except.ok (signAccessToken now (loginSign u), signRefreshToken now (loginSign u),
                  omitKeys (userToDoc u) sanitizedOmitKeys),
       { db with users :=
          (updateFirstUser db.users uid
            (fun v => { v with verifyEmailToken := none, verify := UserVerifyStatus.Verified, updatedAt := now })) }) := by
  unfold findUser at h
  simp [verifyEmail, findOneAndUpdateUser, h, signAccessAndRefreshToken, loginSign]

lemma resetPassword_ok (now uid : Nat) (password : String) (u : User) (db : DB)
    (h : findUser db uid = some u) :
    resetPassword now uid password db =
      (Except.ok (signAccessToken now (loginSign u), signRefreshToken now (loginSign u),
                  omitKeys (userToDoc u) sanitizedOmitKeys),
       { db with users :=
          (updateFirstUser db.users uid
            (fun v => { v with password := hashPassword password, forgotPasswordToken := none, createdAt := now })) }) := by
  unfold findUser at h
  simp [resetPassword, findOneAndUpdateUser, h, signAccessAndRefreshToken, loginSign]

/-- C1: the code contradicts this claim.  On a store holding one user (id 1)
whose verification status is Unverified, verifyEmail 1 does clear the stored
verify-email token and does set the stored status to Verified, but the access
and refresh tokens it returns carry the old Unverified status in their verify
claim, because the pair is signed from the pre-update document returned by
findOneAndUpdate (driver default: return the document from before the
update). -/
theorem C1_verifyEmail_claims_carry_stale_status :
    ((verifyEmail 100 1 db0).1.toOption.map
        (fun r => (r.1.payload.verify, r.2.1.payload.verify))
      = some (UserVerifyStatus.Unverified, UserVerifyStatus.Unverified))
    ∧ ((findUser (verifyEmail 100 1 db0).2 1).map User.verify
      = some UserVerifyStatus.Verified)
    ∧ ((findUser (verifyEmail 100 1 db0).2 1).map User.verifyEmailToken
      = some none) :=
  ⟨rfl, rfl, rfl⟩

/-- C2: counterexample.  At time 1000, rotating oldTok with refreshTokenExp
equal to 0 succeeds, but the new refresh token's decoded expiry claim is the
freshly computed 1000 + 8640000 rather than the requested 0: the JavaScript
truthiness test if (exp) in signRefreshToken treats a zero expiry as absent. -/
theorem C2_rotation_zero_exp_counterexample :
    ((refreshToken envAllOk 1000 rargs0 dbR0).1.toOption.isSome = true)
    ∧ ¬ (((refreshToken envAllOk 1000 rargs0 dbR0).1.toOption.map
          (fun p => p.2.payload.exp)) = some rargs0.refreshTokenExp) := by
  constructor
  · rfl
  · decide

/-- C2 (amended): for every rotation call whose refreshTokenExp is nonzero
and still in the future, the newly issued refresh token's decoded expiry
claim equals refreshTokenExp (the original expiry, not a freshly computed
one), and the RefreshToken record for the old token is deleted from the
store (stated for a store holding at most one record for the old token and a
new token distinct from it); with refreshTokenExp = 0 the expiry is freshly
computed instead, as the counterexample shows. -/
theorem C2_refreshToken_pins_exp_and_deletes (env : OpEnv) (now : Nat) (a : RefreshArgs) (db : DB)
    (hins : env.rtInsertOk = true) (hdel : env.rtDeleteOk = true)
    (hne : a.refreshTokenExp ≠ 0) (hfut : now < a.refreshTokenExp)
    (hcount : db.refreshTokens.countP (fun r => r.token == a.refreshToken) ≤ 1)
    (hnew : signRefreshToken now (rotSign a) ≠ a.refreshToken) :
    (((refreshToken env now a db).1.toOption.map
        (fun p => (decodeRefreshToken now p.2).toOption.map TokenPayload.exp))
      = some (some a.refreshTokenExp))
    ∧ ((refreshToken env now a db).2.refreshTokens.find?
        (fun r => r.token == a.refreshToken) = none) := by
  have hd := decode_signRefreshToken_pinned now (rotSign a) a.refreshTokenExp rfl hne hfut
  rw [refreshToken_ok env now a db hins hdel hne hfut]
  constructor
  · exact congrArg some (by
      show (decodeRefreshToken now (signRefreshToken now (rotSign a))).toOption.map TokenPayload.exp
        = some a.refreshTokenExp
      rw [hd]
      rfl)
  · rw [find?_append_none _ _ _ (deleteFirstRT_find?_none _ _ hcount)]
    simp [List.find?_cons, beq_iff_eq, hnew]

theorem C2_refreshToken_pins_exp_and_deletes_witness :
    ((((refreshToken envAllOk 1000 rargs1 dbR0).1.toOption.map
        (fun p => (decodeRefreshToken 1000 p.2).toOption.map TokenPayload.exp))
      = some (some rargs1.refreshTokenExp))
    ∧ ((refreshToken envAllOk 1000 rargs1 dbR0).2.refreshTokens.find?
        (fun r => r.token == rargs1.refreshToken) = none)) :=
  C2_refreshToken_pins_exp_and_deletes envAllOk 1000 rargs1 dbR0 rfl rfl
    (by decide) (by decide) (by decide) (by decide)

/-- C3: after logout t deletes the refresh record of a well-formed unexpired
refresh token t, the refresh pipeline presenting t is rejected by the
middleware's revocation-store lookup with the NotFound result, whatever the
store environment (stated for a store holding at most one record for t). -/
theorem C3_logout_then_refresh_not_found (env : OpEnv) (now : Nat) (t : Token) (db : DB)
    (hsec : t.secret = ENV_CONFIG.JWT_REFRESH_TOKEN_SECRET)
    (hfut : now < t.payload.exp)
    (hcount : db.refreshTokens.countP (fun r => r.token == t) ≤ 1) :
    (refreshTokenFlow env now t (logout t db).2).1
      = Except.error (FlowError.mw MwError.notFoundInStore) := by
  have hnd : ((logout t db).2.refreshTokens.find? (fun r => r.token == t)) = none :=
    deleteFirstRT_find?_none _ _ hcount
  have hv : verifyToken now ENV_CONFIG.JWT_REFRESH_TOKEN_SECRET t = Except.ok t.payload := by
    unfold verifyToken
    rw [if_neg (by simp [hsec]), if_neg (by omega)]
  simp [refreshTokenFlow, refreshTokenValidator, hv, hnd]

theorem C3_logout_then_refresh_not_found_witness :
    ((oldTok.secret = ENV_CONFIG.JWT_REFRESH_TOKEN_SECRET)
    ∧ (1000 < oldTok.payload.exp)
    ∧ (dbR0.refreshTokens.countP (fun r => r.token == oldTok) ≤ 1))
    ∧ ((refreshTokenFlow envAllOk 1000 oldTok (logout oldTok dbR0).2).1
        = Except.error (FlowError.mw MwError.notFoundInStore)) :=
  ⟨⟨rfl, by decide, by decide⟩,
   C3_logout_then_refresh_not_found envAllOk 1000 oldTok dbR0 rfl (by decide) (by decide)⟩

/-- C4: counterexample.  Rotating oldTok at time 1000 when the insert step of
the store fails: the call reports a failure, yet the old RefreshToken record
has already been deleted and no new record was inserted - exactly the state
the claim says a failing refreshToken call never leaves behind. -/
theorem C4_rotation_not_atomic_counterexample :
    ((refreshToken { rtInsertOk := false } 1000 rargs1 dbR0).1
      = Except.error SvcError.store)
    ∧ ((refreshToken { rtInsertOk := false } 1000 rargs1 dbR0).2.refreshTokens = []) :=
  ⟨rfl, rfl⟩

/-- C4 (amended): when the store operations succeed, each session-issuing
operation returns a token pair and persists the newly issued refresh record
(login unconditionally; register for a fresh id; refreshToken for a nonzero
future original expiry).  The failure half of the claim is false: as the
counterexample shows, a failing refreshToken call can leave the old record
deleted with no new record inserted, because delete and insert are separate
store calls. -/
theorem C4_success_persists_session (now newId : Nat) (email password : String)
    (u : User) (a : RefreshArgs) (db : DB) :
    ((login envAllOk now u db).1.toOption.isSome = true
      ∧ (signRefreshToken now (loginSign u))
          ∈ ((login envAllOk now u db).2.refreshTokens.map RefreshTokenRec.token))
    ∧ (findUser db newId = none →
        ((register envAllOk now newId email password db).1.toOption.isSome = true
          ∧ (signRefreshToken now (loginSign (regUser now newId email password)))
              ∈ ((register envAllOk now newId email password db).2.refreshTokens.map RefreshTokenRec.token)))
    ∧ (a.refreshTokenExp ≠ 0 → now < a.refreshTokenExp →
        ((refreshToken envAllOk now a db).1.toOption.isSome = true
          ∧ (signRefreshToken now (rotSign a))
              ∈ ((refreshToken envAllOk now a db).2.refreshTokens.map RefreshTokenRec.token))) := by
  refine ⟨?_, ?_, ?_⟩
  · rw [login_ok envAllOk now u db rfl]
    exact ⟨rfl, by simp⟩
  · intro hfresh
    rw [register_ok now newId email password db hfresh]
    exact ⟨rfl, by simp⟩
  · intro hne hfut
    rw [refreshToken_ok envAllOk now a db rfl rfl hne hfut]
    exact ⟨rfl, by simp⟩

theorem C4_success_persists_session_witness :
    ((findUser db0 2 = none)
    ∧ ((register envAllOk 1000 2 "b@x.com" "pw" db0).1.toOption.isSome = true))
    ∧ (((rargs1.refreshTokenExp ≠ 0) ∧ (1000 < rargs1.refreshTokenExp))
    ∧ ((refreshToken envAllOk 1000 rargs1 db0).1.toOption.isSome = true)) :=
  ⟨⟨by decide,
    ((C4_success_persists_session 1000 2 "b@x.com" "pw" u0 rargs1 db0).2.1 (by decide)).1⟩,
   ⟨⟨by decide, by decide⟩,
    ((C4_success_persists_session 1000 2 "b@x.com" "pw" u0 rargs1 db0).2.2 (by decide) (by decide)).1⟩⟩

/-- C5: register on a fresh id and fresh email appends exactly one new User
record, stored with verification status Unverified, appends exactly one
RefreshToken record, and the decoded role and status claims of both returned
tokens equal the stored user's role and status. -/
theorem C5_register_creates_user_and_session (now newId : Nat) (email password : String) (db : DB)
    (hfresh : findUser db newId = none)
    (hemail : db.users.all (fun u => u.email != email) = true) :
    ((register envAllOk now newId email password db).2.users
        = db.users ++ [regUser now newId email password])
    ∧ ((regUser now newId email password).verify = UserVerifyStatus.Unverified)
    ∧ ((register envAllOk now newId email password db).2.refreshTokens
        = db.refreshTokens
            ++ [{ token := signRefreshToken now (loginSign (regUser now newId email password)),
                  iat := now, exp := now + ENV_CONFIG.JWT_REFRESH_TOKEN_EXPIRED_IN }])
    ∧ (((register envAllOk now newId email password db).1.toOption.map
          (fun r => (verifyToken now ENV_CONFIG.JWT_ACCESS_TOKEN_SECRET r.1).toOption.map
            (fun p => (p.role, p.status))))
        = some (some ((regUser now newId email password).role, (regUser now newId email password).status)))
    ∧ (((register envAllOk now newId email password db).1.toOption.map
          (fun r => (decodeRefreshToken now r.2.1).toOption.map
            (fun p => (p.role, p.status))))
        = some (some ((regUser now newId email password).role, (regUser now newId email password).status))) := by
  rw [register_ok now newId email password db hfresh]
  refine ⟨rfl, rfl, rfl, ?_, ?_⟩
  · exact congrArg some (by
      show (verifyToken now ENV_CONFIG.JWT_ACCESS_TOKEN_SECRET
            (signAccessToken now (loginSign (regUser now newId email password)))).toOption.map
            (fun p => (p.role, p.status))
        = some ((regUser now newId email password).role, (regUser now newId email password).status)
      rw [verify_signAccessToken now (loginSign (regUser now newId email password))]
      rfl)
  · exact congrArg some (by
      show (decodeRefreshToken now
            (signRefreshToken now (loginSign (regUser now newId email password)))).toOption.map
            (fun p => (p.role, p.status))
        = some ((regUser now newId email password).role, (regUser now newId email password).status)
      rw [decode_signRefreshToken_fresh now (loginSign (regUser now newId email password)) rfl]
      rfl)

theorem C5_register_creates_user_and_session_witness :
    ((findUser db0 2 = none)
    ∧ (db0.users.all (fun u => u.email != "b@x.com") = true))
    ∧ ((register envAllOk 7 2 "b@x.com" "pw" db0).2.users
        = db0.users ++ [regUser 7 2 "b@x.com" "pw"]) :=
  ⟨⟨by decide, by decide⟩,
   (C5_register_creates_user_and_session 7 2 "b@x.com" "pw" db0 (by decide) (by decide)).1⟩

/-- C6: whenever register, verifyEmail or resetPassword returns successfully,
the user view in the result carries no password, verifyEmailToken or
forgotPasswordToken field: the omit list strips all three before return. -/
theorem C6_success_views_sanitized (env : OpEnv) (now newId uid : Nat)
    (email password : String) (db : DB) :
    (((register env now newId email password db).1.toOption.map
        (fun r => sensitiveLeak r.2.2)) ≠ some true)
    ∧ (((verifyEmail now uid db).1.toOption.map
        (fun r => sensitiveLeak r.2.2)) ≠ some true)
    ∧ (((resetPassword now uid password db).1.toOption.map
        (fun r => sensitiveLeak r.2.2)) ≠ some true) := by
  refine ⟨?_, ?_, ?_⟩
  · simp only [register]
    split
    · simp [Except.toOption]
    · split
      · simp [Except.toOption]
      · split
        · simp [Except.toOption]
        · split
          · simp [Except.toOption]
          · split
            · simp [Except.toOption, sensitiveLeak_sanitized]
            · simp [Except.toOption]
  · cases hfind : findUser db uid with
    | none =>
      unfold findUser at hfind
      simp [verifyEmail, findOneAndUpdateUser, hfind, Except.toOption]
    | some u =>
      rw [verifyEmail_ok now uid u db hfind]
      simp [Except.toOption, sensitiveLeak_sanitized]
  · cases hfind : findUser db uid with
    | none =>
      unfold findUser at hfind
      simp [resetPassword, findOneAndUpdateUser, hfind, Except.toOption]
    | some u =>
      rw [resetPassword_ok now uid password u db hfind]
      simp [Except.toOption, sensitiveLeak_sanitized]

theorem C6_success_views_sanitized_witness :
    ((register envAllOk 7 2 "b@x.com" "pw" db0).1.toOption.map
        (fun r => sensitiveLeak r.2.2)) ≠ some true :=
  (C6_success_views_sanitized envAllOk 7 2 1 "b@x.com" "pw" db0).1

/-- C7: when the user record the operation depends on is absent, the
operation fails - the null destructure surfaces as an error to the caller
rather than the operation proceeding - and performs no store write at all,
for resendEmailVerify, verifyEmail and resetPassword. -/
theorem C7_absent_user_fails_without_writes (now uid : Nat) (password : String) (db : DB)
    (h : findUser db uid = none) :
    ((resendEmailVerify now uid db).1 = Except.error SvcError.nullDeref
      ∧ (resendEmailVerify now uid db).2 = db)
    ∧ ((verifyEmail now uid db).1 = Except.error SvcError.nullDeref
      ∧ (verifyEmail now uid db).2 = db)
    ∧ ((resetPassword now uid password db).1 = Except.error SvcError.nullDeref
      ∧ (resetPassword now uid password db).2 = db) := by
  have h' := h
  unfold findUser at h'
  refine ⟨⟨?_, ?_⟩, ⟨?_, ?_⟩, ⟨?_, ?_⟩⟩ <;>
    simp [resendEmailVerify, verifyEmail, resetPassword, findOneAndUpdateUser, h, h']

theorem C7_absent_user_fails_without_writes_witness :
    ((findUser db0 99 = none)
    ∧ ((verifyEmail 5 99 db0).1 = Except.error SvcError.nullDeref))
    ∧ ((resendEmailVerify 5 99 db0).2 = db0) :=
  ⟨⟨by decide, (C7_absent_user_fails_without_writes 5 99 "x" db0 (by decide)).2.1.1⟩,
   (C7_absent_user_fails_without_writes 5 99 "x" db0 (by decide)).1.2⟩

/-- C8: the login response's data carries the stored user document with no
omit applied: the password hash, verifyEmailToken and forgotPasswordToken
fields are all still present in the returned user object. -/
theorem C8_login_response_unsanitized (now : Nat) (u : User) (db : DB) :
    (((loginController envAllOk now u db).1.toOption.map (fun r => r.2.user))
      = some (userToDoc u))
    ∧ (lookupField "password" (userToDoc u) = some (FieldValue.str u.password))
    ∧ (lookupField "verifyEmailToken" (userToDoc u)
      = some (FieldValue.tokenField u.verifyEmailToken))
    ∧ (lookupField "forgotPasswordToken" (userToDoc u)
      = some (FieldValue.tokenField u.forgotPasswordToken)) := by
  refine ⟨?_, rfl, rfl, rfl⟩
  simp [loginController, login_ok envAllOk now u db rfl, Except.toOption]

theorem C8_login_response_unsanitized_witness :
    lookupField "password" (userToDoc u0) = some (FieldValue.str u0.password) :=
  (C8_login_response_unsanitized 3 u0 db0).2.1

/-- C9: resetPassword on a present user rewrites exactly three fields of the
stored record - password becomes the new hash, forgotPasswordToken is
cleared, and createdAt (not updatedAt) is refreshed to the current time -
while every other field, updatedAt included, is unchanged. -/
theorem C9_resetPassword_frame (now uid : Nat) (pw : String) (u : User) (db : DB)
    (h : findUser db uid = some u) :
    (findUser (resetPassword now uid pw db).2 uid
      = some { u with password := hashPassword pw, forgotPasswordToken := none, createdAt := now })
    ∧ (({ u with password := hashPassword pw, forgotPasswordToken := none, createdAt := now } : User).updatedAt
      = u.updatedAt) := by
  constructor
  · rw [resetPassword_ok now uid pw u db h]
    unfold findUser at h
    exact find?_updateFirstUser db.users uid _ u (fun v => rfl) h
  · rfl

theorem C9_resetPassword_frame_witness :
    ((findUser db0 1 = some u0)
    ∧ (findUser (resetPassword 9 1 "new" db0).2 1
      = some { u0 with password := hashPassword "new", forgotPasswordToken := none, createdAt := 9 }))
    ∧ (({ u0 with password := hashPassword "new", forgotPasswordToken := none, createdAt := 9 } : User).updatedAt
      = u0.updatedAt) :=
  ⟨⟨by decide, (C9_resetPassword_frame 9 1 "new" u0 db0 (by decide)).1⟩,
   (C9_resetPassword_frame 9 1 "new" u0 db0 (by decide)).2⟩

/-- C10: the productCategoryId validator rejects an empty (trimmed) value
with BadRequest, a value that is not a valid ObjectId with BadRequest, and a
valid ObjectId with no matching stored category with NotFound; it passes
exactly when a matching category record exists. -/
theorem C10_productCategoryIdValidator_cases (cats : List String) (value : String) :
    ((jsTrim value).isEmpty = true →
      productCategoryIdValidator cats value
        = Except.error { message := PRODUCT_CATEGORY_ID_IS_REQUIRED, status := badRequest })
    ∧ ((jsTrim value).isEmpty = false → isValidObjectId (jsTrim value) = false →
      productCategoryIdValidator cats value
        = Except.error { message := PRODUCT_CATEGORY_ID_IS_INVALID, status := badRequest })
    ∧ ((jsTrim value).isEmpty = false → isValidObjectId (jsTrim value) = true →
      cats.find? (fun c => c == mkObjectIdHex (jsTrim value)) = none →
      productCategoryIdValidator cats value
        = Except.error { message := PRODUCT_CATEGORY_IS_NOT_AVAILABLE, status := notFound })
    ∧ ((jsTrim value).isEmpty = false → isValidObjectId (jsTrim value) = true →
      (cats.find? (fun c => c == mkObjectIdHex (jsTrim value))).isSome = true →
      productCategoryIdValidator cats value = Except.ok ()) := by
  refine ⟨?_, ?_, ?_, ?_⟩
  · intro h1
    simp [productCategoryIdValidator, h1]
  · intro h1 h2
    simp [productCategoryIdValidator, h1, h2]
  · intro h1 h2 h3
    simp [productCategoryIdValidator, h1, h2, h3]
  · intro h1 h2 h3
    cases ho : cats.find? (fun c => c == mkObjectIdHex (jsTrim value)) with
    | none => rw [ho] at h3; simp at h3
    | some c => simp [productCategoryIdValidator, h1, h2, ho]

theorem C10_productCategoryIdValidator_cases_witness :
    (((jsTrim "aaaaaaaaaaaaaaaaaaaaaaaa").isEmpty = false)
    ∧ (isValidObjectId (jsTrim "aaaaaaaaaaaaaaaaaaaaaaaa") = true)
    ∧ (((["aaaaaaaaaaaaaaaaaaaaaaaa"].find?
        (fun c => c == mkObjectIdHex (jsTrim "aaaaaaaaaaaaaaaaaaaaaaaa"))).isSome) = true))
    ∧ (productCategoryIdValidator ["aaaaaaaaaaaaaaaaaaaaaaaa"] "aaaaaaaaaaaaaaaaaaaaaaaa"
        = Except.ok ()) :=
  ⟨⟨by decide, by decide, by decide⟩,
   (C10_productCategoryIdValidator_cases ["aaaaaaaaaaaaaaaaaaaaaaaa"] "aaaaaaaaaaaaaaaaaaaaaaaa").2.2.2
     (by decide) (by decide) (by decide)⟩

end Naee
